import Mathlib

/-!
Verification of the YouTube Live panel (`YouTubeLiveApp.cpp`) of AviTab.

The development shallowly embeds the logic-bearing parts of the panel:

* `trim` / `extractVideoId` — the pure string helpers, modelled on `List Char`
  with the byte-classification functions of the default C locale
  (`isspace`, `isalnum`) restricted to the character level;
* `downloadLiveData` — the two-call fetch, with the HTTP + JSON-parse pipeline
  abstracted as an oracle `fetchJson : String → Except String Json`
  (an `.error` value stands for a thrown transport or parse exception) and the
  wall clock abstracted as the already-formatted timestamp string `now`.  The
  function additionally returns the list of URLs it requested, in order, so
  that "performs no further call" claims are expressible;
* `runFetch`, `triggerRefresh`, `startAutoRefresh` — the scheduling layer,
  modelled as pure transition functions on explicit state records; the two
  reads of the atomic `shuttingDown` flag inside `runFetch` become two boolean
  parameters (the values observed at each read), and `std::stod` is abstracted
  as an oracle `stod : String → Option ℚ` (`none` = exception thrown).
-/

namespace AviTab

/-- Model of `std::isspace` on an `unsigned char` in the default C locale:
space, tab, newline, vertical tab, form feed, carriage return. -/
def isspace (c : Char) : Bool :=
  c.toNat = 32 || c.toNat = 9 || c.toNat = 10 || c.toNat = 11 ||
  c.toNat = 12 || c.toNat = 13

/-- Model of `std::isalnum` in the default C locale: digits and ASCII letters. -/
def isalnum (c : Char) : Bool :=
  ('0' ≤ c && c ≤ '9') || ('A' ≤ c && c ≤ 'Z') || ('a' ≤ c && c ≤ 'z')

/-- Embedding of `YouTubeLiveApp::trim`: drop leading whitespace, then trailing
whitespace (via `find_if_not` from both ends in the source). -/
def trim (s : List Char) : List Char :=
  List.rdropWhile isspace (List.dropWhile isspace s)

/-- String-level wrapper for `trim`. -/
def trimStr (s : String) : String :=
  String.mk (trim s.toList)

/-- The `isCandidate` lambda inside `extractVideoId`: exactly 11 characters,
each alphanumeric or `-`/`_`. -/
def isCandidate (candidate : List Char) : Bool :=
  candidate.length = 11 &&
  candidate.all (fun c => isalnum c || c = '-' || c = '_')

/-- Model of `std::string::find`: index of the first occurrence of `needle` in `hay`
(`none` = `npos`). -/
def findSub (hay needle : List Char) : Option Nat :=
  if needle.isPrefixOf hay then some 0
  else
    match hay with
    | [] => none
    | _ :: t => (findSub t needle).map (· + 1)

/-- A character that is not one of the URL delimiters `?`, `&`, `#`
(the `find_first_of("?&#", pos)` stop set). -/
def notDelim (c : Char) : Bool :=
  !(c = '?' || c = '&' || c = '#')

/-- The `findId` lambda inside `extractVideoId`: locate `key`, take the text
after it up to the first of `?`/`&`/`#` or end of string, and return it when
it validates, otherwise the empty string. -/
def findId (trimmed key : List Char) : List Char :=
  match findSub trimmed key with
  | none => []
  | some pos =>
    let candidate := (trimmed.drop (pos + key.length)).takeWhile notDelim
    if isCandidate candidate then candidate else []

def vMarker : List Char := ['v', '=']
def beMarker : List Char := "youtu.be/".toList
def embedMarker : List Char := "/embed/".toList

/-- Body of `YouTubeLiveApp::extractVideoId` after trimming. -/
def extractVideoIdCore (trimmed : List Char) : List Char :=
  if trimmed = [] then []
  else if isCandidate trimmed then trimmed
  else
    let id1 := findId trimmed vMarker
    if id1 ≠ [] then id1
    else
      let id2 := findId trimmed beMarker
      if id2 ≠ [] then id2
      else
        let id3 := findId trimmed embedMarker
        if id3 ≠ [] then id3 else []

/-- Embedding of `YouTubeLiveApp::extractVideoId`. -/
def extractVideoId (url : List Char) : List Char :=
  extractVideoIdCore (trim url)

/-- String-level wrapper for `extractVideoId`. -/
def extractVideoIdStr (s : String) : String :=
  String.mk (extractVideoId s.toList)

/-- The candidate text a marker yields, per the spec wording: the text
immediately following the first occurrence of the marker, up to (but
excluding) the next `?`, `&` or `#`, or end of string (`none` when the
marker does not occur). -/
def markerCandidate (trimmed key : List Char) : Option (List Char) :=
  (findSub trimmed key).map
    (fun pos => (trimmed.drop (pos + key.length)).takeWhile notDelim)

/-- Modelled from the spec: `extractVideoId` as worded there: trim; empty fails; a trimmed
value that is itself a valid ID is returned unchanged; otherwise the markers
`v=`, `youtu.be/`, `/embed/` are tried in that fixed priority order and the
first candidate passing the 11-character rule is returned; otherwise fail. -/
def extractVideoIdSpec (url : List Char) : List Char :=
  let trimmed := trim url
  if trimmed = [] then []
  else if isCandidate trimmed then trimmed
  else
    match ([vMarker, beMarker, embedMarker].filterMap
        (fun k => (markerCandidate trimmed k).filter isCandidate)).head? with
    | some c => c
    | none => []

/-! ## JSON model (the slice of `nlohmann::json` the panel uses) -/

/-- JSON values, as delivered by the (abstracted) parse step. -/
inductive Json where
  | null : Json
  | jbool : Bool → Json
  | jnum : Int → Json
  | jstr : String → Json
  | jarr : List Json → Json
  | jobj : List (String × Json) → Json
deriving Inhabited, Repr

/-- Model of `json::contains(key)`: true only for objects holding the key. -/
def Json.contains (j : Json) (key : String) : Bool :=
  match j with
  | .jobj fields => fields.any (fun f => f.1 = key)
  | _ => false

/-- Model of `json::operator[](key)` on a value known to contain `key`
(`null` outside that guarded use). -/
def Json.index (j : Json) (key : String) : Json :=
  match j with
  | .jobj fields =>
    match fields.find? (fun f => f.1 = key) with
    | some f => f.2
    | none => .null
  | _ => .null

/-- Model of `json::empty()`: `null` is empty, arrays/objects test their size,
primitives are non-empty. -/
def Json.isEmpty (j : Json) : Bool :=
  match j with
  | .null => true
  | .jarr items => items.isEmpty
  | .jobj fields => fields.isEmpty
  | _ => false

/-- Model of `json::front()` on a value guarded by `!empty()`: first array element
(first object value; a primitive is its own front). -/
def Json.front (j : Json) : Json :=
  match j with
  | .jarr (h :: _) => h
  | .jarr [] => .null
  | .jobj (f :: _) => f.2
  | .jobj [] => .null
  | .null => .null
  | j => j

/-- Range-`for` over a `json` value: array elements, object values, nothing
for `null`, the value itself for primitives. -/
def Json.asList (j : Json) : List Json :=
  match j with
  | .jarr items => items
  | .jobj fields => fields.map (fun f => f.2)
  | .null => []
  | j => [j]

/-- Model of `json::get<std::string>()`: the string payload, or a thrown type error
for any non-string value. -/
def Json.getStr (j : Json) : Except String String :=
  match j with
  | .jstr s => .ok s
  | _ => .error "type must be string"

/-! ## LiveData and the fetch -/

/-- Embedding of `YouTubeLiveApp::LiveData` with its member initializers. -/
structure LiveData where
  success : Bool := false
  viewersText : String := ""
  statusText : String := ""
  comments : List String := []
deriving DecidableEq, Repr

def kMaxComments : Nat := 25

/-- URL of the videos call built in `downloadLiveData`. -/
def videosUrl (videoId apiKey : String) : String :=
  "https://www.googleapis.com/youtube/v3/videos?part=liveStreamingDetails&id="
    ++ videoId ++ "&key=" ++ apiKey

/-- URL of the live-chat messages call built in `downloadLiveData`. -/
def chatUrl (chatId apiKey : String) : String :=
  "https://www.googleapis.com/youtube/v3/liveChat/messages?part=snippet,authorDetails&maxResults="
    ++ toString kMaxComments ++ "&liveChatId=" ++ chatId ++ "&key=" ++ apiKey

/-- The `viewersText` assignment of `downloadLiveData`:
`concurrentViewers` as a string when present, else `n/a`
(`get<std::string>` may throw). -/
def viewersFromDetails (details : Json) : Except String String :=
  if details.contains "concurrentViewers" then
    match (details.index "concurrentViewers").getStr with
    | .error e => .error e
    | .ok s => .ok ("Concurrent viewers: " ++ s)
  else .ok "Concurrent viewers: n/a"

/-- The `author` assignment of the chat-message loop:
`authorDetails.displayName` when present, default `Unknown`
(`get<std::string>` may throw). -/
def chatAuthor (msg : Json) : Except String String :=
  if msg.contains "authorDetails" &&
      (msg.index "authorDetails").contains "displayName" then
    ((msg.index "authorDetails").index "displayName").getStr
  else .ok "Unknown"

/-- The `message` assignment of the chat-message loop:
`snippet.displayMessage` when present, default empty. -/
def chatMessage (msg : Json) : Except String String :=
  if msg.contains "snippet" && (msg.index "snippet").contains "displayMessage" then
    ((msg.index "snippet").index "displayMessage").getStr
  else .ok ""

/-- The chat-message loop of `downloadLiveData`: per item, push
`author: message` when the message is non-empty; break once `kMaxComments`
entries are held.  A type error inside `get<std::string>` aborts the whole
fetch. -/
def chatLoop (msgs : List Json) (acc : List String) : Except String (List String) :=
  match msgs with
  | [] => .ok acc
  | msg :: rest =>
    match chatAuthor msg with
    | .error e => .error e
    | .ok author =>
      match chatMessage msg with
      | .error e => .error e
      | .ok message =>
        let acc' := if message ≠ "" then acc ++ [author ++ ": " ++ message] else acc
        if kMaxComments ≤ acc'.length then .ok acc'
        else chatLoop rest acc'

/-- Tail of `downloadLiveData`: fall back to the placeholder when no comment
was collected, then stamp the status line and the success flag. -/
def finishLiveData (now viewersText : String) (comments : List String) : LiveData :=
  let comments :=
    if comments.isEmpty then ["No live chat messages available."] else comments
  { success := true, viewersText := viewersText,
    statusText := "Last update: " ++ now, comments := comments }

/-- Embedding of `YouTubeLiveApp::downloadLiveData`.  `fetchJson` is the oracle composing
`httpClient.get` with `nlohmann::json::parse` (`.error` = thrown exception);
`now` is the formatted local time `formatTimestamp()` would return.  The
second component is the ordered list of URLs actually requested. -/
def downloadLiveData (fetchJson : String → Except String Json)
    (now apiKey videoId : String) : Except String LiveData × List String :=
  let vUrl := videosUrl videoId apiKey
  match fetchJson vUrl with
  | .error e => (.error e, [vUrl])
  | .ok videoJson =>
    if !(videoJson.contains "items") || (videoJson.index "items").isEmpty then
      (.ok { statusText := "Live stream not found." }, [vUrl])
    else
      let item := (videoJson.index "items").front
      if item.contains "liveStreamingDetails" then
        let details := item.index "liveStreamingDetails"
        match viewersFromDetails details with
        | .error e => (.error e, [vUrl])
        | .ok viewersText =>
          if details.contains "activeLiveChatId" then
            match (details.index "activeLiveChatId").getStr with
            | .error e => (.error e, [vUrl])
            | .ok chatId =>
              let cUrl := chatUrl chatId apiKey
              match fetchJson cUrl with
              | .error e => (.error e, [vUrl, cUrl])
              | .ok chatJson =>
                match (if chatJson.contains "items" then
                        chatLoop (chatJson.index "items").asList []
                      else .ok []) with
                | .error e => (.error e, [vUrl, cUrl])
                | .ok comments =>
                  (.ok (finishLiveData now viewersText comments), [vUrl, cUrl])
          else
            (.ok (finishLiveData now viewersText
                    ["Live chat is not active for this stream."]), [vUrl])
      else
        (.ok (finishLiveData now "Concurrent viewers: unavailable"
                ["Live stream does not expose live chat data."]), [vUrl])

/-! ## The worker (`runFetch`) and the UI-update closure -/

/-- Observable outcome of one `runFetch` call.  `sdAtStart` / `sdAfterFetch`
are the values the two `shuttingDown.load()` reads observe. -/
structure FetchOutcome where
  fetchPerformed : Bool
  requestInProgress : Bool
  uiUpdateScheduled : Bool
  scheduledData : Option LiveData
deriving Repr

/-- Embedding of `YouTubeLiveApp::runFetch`: skip the download when shutting down, turn a
thrown exception into an `Error: ` status on an otherwise default record,
clear `requestInProgress`, and schedule the UI closure unless shutting down. -/
def runFetch (fetchJson : String → Except String Json)
    (now apiKey videoId : String) (sdAtStart sdAfterFetch : Bool) : FetchOutcome :=
  let data : LiveData :=
    if sdAtStart then {}
    else
      match (downloadLiveData fetchJson now apiKey videoId).1 with
      | .ok d => d
      | .error e => { statusText := "Error: " ++ e }
  { fetchPerformed := !sdAtStart
    requestInProgress := false
    uiUpdateScheduled := !sdAfterFetch
    scheduledData := if sdAfterFetch then none else some data }

/-- The list-widget part of the UI-update closure: the placeholder when
`comments` is empty, else entries added until the index reaches
`kMaxComments`. -/
def renderListLines (comments : List String) : List String :=
  if comments.isEmpty then ["No live chat messages available."]
  else comments.take kMaxComments

/-! ## `triggerRefresh` -/

/-- The panel state `triggerRefresh` reads and writes. -/
structure TriggerState where
  requestInProgress : Bool
  statusText : String
  viewersText : String
  listLines : List String
deriving DecidableEq, Repr

/-- Outcome of one `triggerRefresh` call: the updated state, whether a worker
thread was launched, and the arguments it was launched with. -/
structure TriggerResult where
  state : TriggerState
  startedWorker : Bool
  workerArgs : Option (String × String)
deriving DecidableEq, Repr

/-- Embedding of `YouTubeLiveApp::triggerRefresh`: the `exchange(true)` single-flight
guard, the two validation steps (each resetting `requestInProgress`), and the
worker launch. -/
def triggerRefresh (st : TriggerState) (apiKeyText urlText : String) : TriggerResult :=
  if st.requestInProgress then
    { state := { st with statusText := "Update already in progress..." }
      startedWorker := false, workerArgs := none }
  else
    let st := { st with requestInProgress := true }
    let apiKey := trimStr apiKeyText
    let liveUrl := trimStr urlText
    if apiKey = "" || liveUrl = "" then
      { state := { st with
          statusText := "Please provide both the live URL and API key."
          requestInProgress := false }
        startedWorker := false, workerArgs := none }
    else
      let videoId := extractVideoIdStr liveUrl
      if videoId = "" then
        { state := { st with
            statusText := "Unable to determine the video ID."
            requestInProgress := false }
          startedWorker := false, workerArgs := none }
      else
        { state := { st with
            statusText := "Updating..."
            viewersText := "Concurrent viewers: --"
            listLines := ["Loading live chat messages..."] }
          startedWorker := true, workerArgs := some (apiKey, videoId) }

/-! ## `startAutoRefresh` -/

def kDefaultIntervalMinutes : Int := 1

/-- Observable outcome of one `startAutoRefresh` call. -/
structure AutoRefreshResult where
  statusMessage : Option String
  autoRefreshEnabled : Bool
  timerIntervalMs : Option Int
  toggleLabel : Option String
  triggeredRefresh : Bool
deriving DecidableEq, Repr

/-- The interval text after the empty-field default is applied. -/
def effectiveIntervalText (intervalText : String) : String :=
  let t := trimStr intervalText
  if t = "" then toString kDefaultIntervalMinutes else t

/-- Embedding of `YouTubeLiveApp::startAutoRefresh`.  `stod` abstracts `std::stod` over
the conversion result (`none` = exception).  `static_cast<int>` truncates
toward zero, which on the accepted positive values is the floor. -/
def startAutoRefresh (stod : String → Option ℚ) (intervalText : String) :
    AutoRefreshResult :=
  match stod (effectiveIntervalText intervalText) with
  | none =>
    { statusMessage := some "Invalid refresh interval. Enter minutes."
      autoRefreshEnabled := false, timerIntervalMs := none
      toggleLabel := none, triggeredRefresh := false }
  | some minutes =>
    if minutes ≤ 0 then
      { statusMessage := some "The interval must be greater than zero."
        autoRefreshEnabled := false, timerIntervalMs := none
        toggleLabel := none, triggeredRefresh := false }
    else
      { statusMessage := none, autoRefreshEnabled := true
        timerIntervalMs := some ⌊minutes * 60 * 1000⌋
        toggleLabel := some "Stop auto refresh", triggeredRefresh := true }

/-! ## Supporting lemmas on the fetch -/

lemma chatLoop_length_le (msgs : List Json) :
    ∀ acc r, acc.length < kMaxComments → chatLoop msgs acc = .ok r →
      r.length ≤ kMaxComments := by
  induction msgs with
  | nil =>
    intro acc r hacc h
    rw [chatLoop] at h
    injection h with h
    exact h ▸ le_of_lt hacc
  | cons msg rest ih =>
    intro acc r hacc h
    rw [chatLoop] at h
    cases hA : chatAuthor msg with
    | error e => rw [hA] at h; exact absurd h (by simp)
    | ok author =>
      rw [hA] at h
      cases hM : chatMessage msg with
      | error e => rw [hM] at h; exact absurd h (by simp)
      | ok message =>
        rw [hM] at h
        simp only at h
        set acc' := if message ≠ "" then acc ++ [author ++ ": " ++ message] else acc
          with hdef
        have hlen : acc'.length ≤ acc.length + 1 := by
          rw [hdef]; split <;> simp
        by_cases hge : kMaxComments ≤ acc'.length
        · rw [if_pos hge] at h
          injection h with h
          exact h ▸ hlen.trans (Nat.succ_le_of_lt hacc)
        · rw [if_neg hge] at h
          exact ih acc' r (lt_of_not_le hge) h

lemma finishLiveData_comments_ne_nil (now viewers : String) (cs : List String) :
    (finishLiveData now viewers cs).comments ≠ [] := by
  rw [finishLiveData]
  by_cases h : cs.isEmpty
  · simp [h]
  · simp only [h, Bool.false_eq_true, if_false]
    exact fun hc => h (by simp [hc, List.isEmpty_nil])

lemma finishLiveData_comments_length (now viewers : String) (cs : List String)
    (h : cs.length ≤ kMaxComments) :
    (finishLiveData now viewers cs).comments.length ≤ kMaxComments := by
  rw [finishLiveData]
  by_cases he : cs.isEmpty
  · simp [he, kMaxComments]
  · simpa [he] using h

lemma finishLiveData_success (now viewers : String) (cs : List String) :
    (finishLiveData now viewers cs).success = true := by
  rw [finishLiveData]

/-- Every `.ok` result of `downloadLiveData` is either the not-found record
(videos call succeeded but delivered no `items`; only the videos call was
made) or a `finishLiveData` record built from at most `kMaxComments` comment
lines (videos call succeeded with an item; any chat call made also
succeeded). -/
lemma downloadLiveData_cases
    (f : String → Except String Json) (now k v : String) (d : LiveData)
    (h : (downloadLiveData f now k v).1 = .ok d) :
    (∃ j, f (videosUrl v k) = .ok j ∧
       (!(j.contains "items") || (j.index "items").isEmpty) = true ∧
       d = { statusText := "Live stream not found." } ∧
       (downloadLiveData f now k v).2 = [videosUrl v k]) ∨
    (∃ j, f (videosUrl v k) = .ok j ∧
       (!(j.contains "items") || (j.index "items").isEmpty) = false ∧
       (∃ viewers cs, cs.length ≤ kMaxComments ∧ d = finishLiveData now viewers cs) ∧
       ((downloadLiveData f now k v).2 = [videosUrl v k] ∨
        ∃ cid cj, f (chatUrl cid k) = .ok cj ∧
          (downloadLiveData f now k v).2 = [videosUrl v k, chatUrl cid k])) := by
  rcases hdl : downloadLiveData f now k v with ⟨r, tr⟩
  rw [hdl] at h
  simp only at h
  rw [downloadLiveData] at hdl
  simp only at hdl
  cases hf : f (videosUrl v k) with
  | error e =>
    rw [hf] at hdl
    simp only at hdl
    injection hdl with h1 _
    rw [← h1] at h
    exact absurd h (by simp)
  | ok videoJson =>
    rw [hf] at hdl
    simp only at hdl
    by_cases hit : (!(videoJson.contains "items") || (videoJson.index "items").isEmpty)
        = true
    · rw [if_pos hit] at hdl
      injection hdl with h1 h2
      rw [← h1] at h
      injection h with h
      exact Or.inl ⟨videoJson, rfl, hit, h.symm, h2.symm⟩
    · rw [if_neg hit] at hdl
      refine Or.inr ⟨videoJson, rfl, Bool.not_eq_true _ ▸ eq_false_of_ne_true hit, ?_⟩
      by_cases hdet : ((videoJson.index "items").front.contains "liveStreamingDetails")
          = true
      · rw [if_pos hdet] at hdl
        cases hv : viewersFromDetails
            ((videoJson.index "items").front.index "liveStreamingDetails") with
        | error e =>
          rw [hv] at hdl
          injection hdl with h1 _
          rw [← h1] at h
          exact absurd h (by simp)
        | ok viewers =>
          rw [hv] at hdl
          simp only at hdl
          by_cases hcid : (((videoJson.index "items").front.index
              "liveStreamingDetails").contains "activeLiveChatId") = true
          · rw [if_pos hcid] at hdl
            cases hgs : (((videoJson.index "items").front.index
                "liveStreamingDetails").index "activeLiveChatId").getStr with
            | error e =>
              rw [hgs] at hdl
              injection hdl with h1 _
              rw [← h1] at h
              exact absurd h (by simp)
            | ok chatId =>
              rw [hgs] at hdl
              simp only at hdl
              cases hc : f (chatUrl chatId k) with
              | error e =>
                rw [hc] at hdl
                injection hdl with h1 _
                rw [← h1] at h
                exact absurd h (by simp)
              | ok chatJson =>
                rw [hc] at hdl
                simp only at hdl
                cases hcl : (if chatJson.contains "items" then
                    chatLoop (chatJson.index "items").asList [] else .ok []) with
                | error e =>
                  rw [hcl] at hdl
                  injection hdl with h1 _
                  rw [← h1] at h
                  exact absurd h (by simp)
                | ok cs =>
                  rw [hcl] at hdl
                  injection hdl with h1 h2
                  rw [← h1] at h
                  injection h with h
                  have hlen : cs.length ≤ kMaxComments := by
                    by_cases hci : (chatJson.contains "items") = true
                    · rw [if_pos hci] at hcl
                      exact chatLoop_length_le _ [] cs (by simp [kMaxComments]) hcl
                    · rw [if_neg hci] at hcl
                      injection hcl with hcl
                      rw [← hcl]
                      simp [kMaxComments]
                  exact ⟨⟨viewers, cs, hlen, h.symm⟩,
                    Or.inr ⟨chatId, chatJson, hc, h2.symm⟩⟩
          · rw [if_neg hcid] at hdl
            injection hdl with h1 h2
            rw [← h1] at h
            injection h with h
            exact ⟨⟨viewers, _, by simp [kMaxComments], h.symm⟩, Or.inl h2.symm⟩
      · rw [if_neg hdet] at hdl
        injection hdl with h1 h2
        rw [← h1] at h
        injection h with h
        exact ⟨⟨"Concurrent viewers: unavailable", _, by simp [kMaxComments], h.symm⟩,
          Or.inl h2.symm⟩

/-! ## Supporting lemmas on the string helpers -/

lemma isCandidate_ne_nil {c : List Char} (h : isCandidate c = true) : c ≠ [] := by
  intro hc
  rw [hc] at h
  simp [isCandidate] at h

lemma findId_eq_markerCandidate (t k : List Char) :
    findId t k = ((markerCandidate t k).filter isCandidate).getD [] := by
  cases h : findSub t k with
  | none => simp [findId, markerCandidate, h]
  | some pos =>
    simp only [findId, markerCandidate, h, Option.map_some', Option.filter]
    split <;> simp

lemma extractVideoId_eq_spec : ∀ url, extractVideoId url = extractVideoIdSpec url := by
  intro url
  rw [extractVideoId, extractVideoIdCore, extractVideoIdSpec]
  by_cases h0 : trim url = []
  · simp [h0]
  · simp only [h0, if_false]
    by_cases hc : isCandidate (trim url) = true
    · simp [hc]
    · simp only [hc, Bool.false_eq_true, if_false]
      rw [List.filterMap_cons, List.filterMap_cons, List.filterMap_cons,
        List.filterMap_nil]
      cases h1 : (markerCandidate (trim url) vMarker).filter isCandidate with
      | some c1 =>
        have hne : c1 ≠ [] := isCandidate_ne_nil (Option.filter_eq_some.mp h1).2
        simp [findId_eq_markerCandidate, h1, hne]
      | none =>
        cases h2 : (markerCandidate (trim url) beMarker).filter isCandidate with
        | some c2 =>
          have hne : c2 ≠ [] := isCandidate_ne_nil (Option.filter_eq_some.mp h2).2
          simp [findId_eq_markerCandidate, h1, h2, hne]
        | none =>
          cases h3 : (markerCandidate (trim url) embedMarker).filter isCandidate with
          | some c3 =>
            have hne : c3 ≠ [] := isCandidate_ne_nil (Option.filter_eq_some.mp h3).2
            simp [findId_eq_markerCandidate, h1, h2, h3, hne]
          | none =>
            simp [findId_eq_markerCandidate, h1, h2, h3]

lemma dropWhile_append_of_all {α : Type} (p : α → Bool) {ws : List α} (x : List α)
    (h : ∀ c ∈ ws, p c = true) :
    List.dropWhile p (ws ++ x) = List.dropWhile p x := by
  induction ws with
  | nil => rfl
  | cons a t ih =>
    rw [List.cons_append, List.dropWhile_cons, if_pos (h a (List.mem_cons_self a t))]
    exact ih (fun c hc => h c (List.mem_cons_of_mem a hc))

lemma dropWhile_append_ne_nil {α : Type} (p : α → Bool) {x : List α} (y : List α)
    (h : List.dropWhile p x ≠ []) :
    List.dropWhile p (x ++ y) = List.dropWhile p x ++ y := by
  induction x with
  | nil => exact absurd rfl h
  | cons a t ih =>
    by_cases hp : p a = true
    · rw [List.cons_append, List.dropWhile_cons, if_pos hp]
      rw [List.dropWhile_cons, if_pos hp] at h ⊢
      exact ih h
    · rw [List.cons_append, List.dropWhile_cons, if_neg hp,
        List.dropWhile_cons, if_neg hp, List.cons_append]

lemma rdropWhile_append_of_all {α : Type} (p : α → Bool) (x : List α) {ws : List α}
    (h : ∀ c ∈ ws, p c = true) :
    List.rdropWhile p (x ++ ws) = List.rdropWhile p x := by
  rw [List.rdropWhile, List.rdropWhile, List.reverse_append,
    dropWhile_append_of_all p _ (fun c hc => h c (List.mem_reverse.mp hc))]

lemma trim_append_left {ws : List Char} (x : List Char)
    (h : ∀ c ∈ ws, isspace c = true) : trim (ws ++ x) = trim x := by
  rw [trim, trim, dropWhile_append_of_all isspace x h]

lemma trim_append_right (x : List Char) {ws : List Char}
    (h : ∀ c ∈ ws, isspace c = true) : trim (x ++ ws) = trim x := by
  by_cases hx : List.dropWhile isspace x = []
  · have hall : ∀ c ∈ x, isspace c = true := by
      intro c hc
      exact List.dropWhile_eq_nil_iff.mp hx c hc
    have hxw : List.dropWhile isspace (x ++ ws) = [] := by
      rw [List.dropWhile_eq_nil_iff]
      intro c hc
      rcases List.mem_append.mp hc with hc | hc
      · exact hall c hc
      · exact h c hc
    rw [trim, trim, hx, hxw]
  · rw [trim, trim, dropWhile_append_ne_nil isspace ws hx,
      rdropWhile_append_of_all isspace _ h]

lemma trim_idem (s : List Char) : trim (trim s) = trim s := by
  have hpre : trim s <+: List.dropWhile isspace s :=
    List.rdropWhile_prefix isspace (List.dropWhile isspace s)
  have h1 : List.dropWhile isspace (trim s) = trim s := by
    rw [List.dropWhile_eq_self_iff]
    intro hl
    have hlen : 0 < (List.dropWhile isspace s).length :=
      lt_of_lt_of_le hl hpre.length_le
    have hget : (List.dropWhile isspace s).get ⟨0, hlen⟩ = (trim s).get ⟨0, hl⟩ := by
      simpa [List.get_eq_getElem] using (hpre.getElem (n := 0) hl).symm
    rw [← hget]
    exact List.dropWhile_get_zero_not isspace s hlen
  calc trim (trim s)
      = List.rdropWhile isspace (List.dropWhile isspace (trim s)) := rfl
    _ = List.rdropWhile isspace (trim s) := by rw [h1]
    _ = trim s := by rw [trim, List.rdropWhile_idempotent]

lemma findId_valid_of_ne_nil {t k : List Char} (h : findId t k ≠ []) :
    isCandidate (findId t k) = true := by
  rw [findId] at h ⊢
  cases hf : findSub t k with
  | none =>
    rw [hf] at h
    simp only at h
    exact absurd rfl h
  | some pos =>
    rw [hf] at h
    simp only at h ⊢
    by_cases hc : isCandidate
        (List.takeWhile notDelim (List.drop (pos + k.length) t)) = true
    · rw [if_pos hc]
      exact hc
    · rw [if_neg hc] at h
      exact absurd rfl h

lemma extractVideoId_valid_of_ne_nil {url : List Char} (h : extractVideoId url ≠ []) :
    isCandidate (extractVideoId url) = true := by
  rw [extractVideoId, extractVideoIdCore] at h ⊢
  by_cases h0 : trim url = []
  · rw [if_pos h0] at h; exact absurd rfl h
  · rw [if_neg h0] at h ⊢
    by_cases hc : isCandidate (trim url) = true
    · rwa [if_pos hc] at h ⊢
    · rw [if_neg hc] at h ⊢
      by_cases h1 : findId (trim url) vMarker ≠ []
      · rw [if_pos h1] at h ⊢
        exact findId_valid_of_ne_nil h1
      · rw [if_neg h1] at h ⊢
        by_cases h2 : findId (trim url) beMarker ≠ []
        · rw [if_pos h2] at h ⊢
          exact findId_valid_of_ne_nil h2
        · rw [if_neg h2] at h ⊢
          by_cases h3 : findId (trim url) embedMarker ≠ []
          · rw [if_pos h3] at h ⊢
            exact findId_valid_of_ne_nil h3
          · rw [if_neg h3] at h
            exact absurd rfl h

/-! ## Concrete fixtures used to instantiate the theorems -/

/-- A videos-API response with one live item exposing a viewer count and an
active chat. -/
def sampleVideoJson : Json :=
  .jobj [("items", .jarr [.jobj [("liveStreamingDetails",
    .jobj [("concurrentViewers", .jstr "42"),
           ("activeLiveChatId", .jstr "CHAT")])]])]

/-- A chat-API response with a single message. -/
def sampleChatJson : Json :=
  .jobj [("items", .jarr [.jobj [
    ("authorDetails", .jobj [("displayName", .jstr "Alice")]),
    ("snippet", .jobj [("displayMessage", .jstr "hello")])]])]

/-- A network oracle serving the two sample responses. -/
def sampleFetch : String → Except String Json := fun u =>
  if u = videosUrl "vid" "key" then .ok sampleVideoJson
  else if u = chatUrl "CHAT" "key" then .ok sampleChatJson
  else .error "unexpected URL"

/-- The record `downloadLiveData` produces from the sample responses. -/
def sampleLive : LiveData :=
  { success := true, viewersText := "Concurrent viewers: 42"
    statusText := "Last update: 12:00:00", comments := ["Alice: hello"] }

/-- The early-return record of the not-found path, written out in full. -/
def notFoundLive : LiveData :=
  { success := false, viewersText := ""
    statusText := "Live stream not found.", comments := [] }

/-! ## Theorems -/

/-- C2: at most one fetch is in flight at any time: a `triggerRefresh` call
that finds `requestInProgress` already set reports "Update already in
progress..." and starts no worker; every validation-failure path resets
`requestInProgress` to `false` without starting a worker; and the worker
(`runFetch`) always leaves `requestInProgress = false` when it completes. -/
theorem triggerRefresh_single_flight :
    (∀ st a u, st.requestInProgress = true →
      (triggerRefresh st a u).startedWorker = false ∧
      (triggerRefresh st a u).workerArgs = none ∧
      (triggerRefresh st a u).state.statusText = "Update already in progress...") ∧
    (∀ st a u, st.requestInProgress = false →
      (trimStr a = "" ∨ trimStr u = "" ∨ extractVideoIdStr (trimStr u) = "") →
      (triggerRefresh st a u).startedWorker = false ∧
      (triggerRefresh st a u).state.requestInProgress = false) ∧
    (∀ f now k v sd1 sd2, (runFetch f now k v sd1 sd2).requestInProgress = false) := by
  refine ⟨fun st a u h => ?_, fun st a u h hv => ?_, fun f now k v sd1 sd2 => ?_⟩
  · simp [triggerRefresh, h]
  · by_cases ha : trimStr a = ""
    · simp [triggerRefresh, h, ha]
    · by_cases hu : trimStr u = ""
      · simp [triggerRefresh, h, ha, hu]
      · rcases hv with hv | hv | hv
        · exact absurd hv ha
        · exact absurd hv hu
        · simp [triggerRefresh, h, ha, hu, hv]
  · simp [runFetch]

/-- Closed instance of `triggerRefresh_single_flight` at concrete inputs. -/
theorem triggerRefresh_single_flight_witness :
    (triggerRefresh ⟨true, "Ready", "", []⟩ "key" "url").startedWorker = false ∧
    (triggerRefresh ⟨false, "Ready", "", []⟩ "" "url").state.requestInProgress = false ∧
    (runFetch (fun _ => .error "down") "12:00:00" "key" "vid" false false).requestInProgress
      = false :=
  ⟨(triggerRefresh_single_flight.1 ⟨true, "Ready", "", []⟩ "key" "url" rfl).1,
   (triggerRefresh_single_flight.2.1 ⟨false, "Ready", "", []⟩ "" "url" rfl
      (Or.inl (by decide))).2,
   triggerRefresh_single_flight.2.2 (fun _ => .error "down") "12:00:00" "key" "vid"
     false false⟩

/-- C9: once `shuttingDown` is observed `true`, the worker performs no fetch
(the first read, at the start of `runFetch`) and schedules no UI-update
closure (the second read, after the fetch). -/
theorem runFetch_shutdown :
    ∀ f now k v sd1 sd2,
      (sd1 = true → (runFetch f now k v sd1 sd2).fetchPerformed = false) ∧
      (sd2 = true → (runFetch f now k v sd1 sd2).uiUpdateScheduled = false ∧
        (runFetch f now k v sd1 sd2).scheduledData = none) := by
  intro f now k v sd1 sd2
  constructor
  · intro h; simp [runFetch, h]
  · intro h; simp [runFetch, h]

/-- Closed instance of `runFetch_shutdown` with both reads observing
`shuttingDown = true`. -/
theorem runFetch_shutdown_witness :
    (runFetch (fun _ => .error "down") "12:00:00" "key" "vid" true true).fetchPerformed
      = false ∧
    (runFetch (fun _ => .error "down") "12:00:00" "key" "vid" true true).uiUpdateScheduled
      = false :=
  ⟨(runFetch_shutdown (fun _ => .error "down") "12:00:00" "key" "vid" true true).1 rfl,
   ((runFetch_shutdown (fun _ => .error "down") "12:00:00" "key" "vid" true true).2 rfl).1⟩

/-- C3: when `downloadLiveData` raises a transport or parse exception with
message `m`, the record delivered to the UI is exactly the default one with
`statusText = "Error: " ++ m`: `success = false`, empty `viewersText`, no
comments — no partial results survive. -/
theorem runFetch_error_atomic :
    ∀ f now k v m, (downloadLiveData f now k v).1 = .error m →
      (runFetch f now k v false false).scheduledData =
        some { success := false, viewersText := "", statusText := "Error: " ++ m,
               comments := [] } := by
  intro f now k v m h
  simp [runFetch, h]

/-- Closed instance of `runFetch_error_atomic`: a transport failure on the
videos call. -/
theorem runFetch_error_atomic_witness :
    (runFetch (fun _ => .error "connection reset") "12:00:00" "key" "vid"
        false false).scheduledData =
      some { success := false, viewersText := "",
             statusText := "Error: " ++ "connection reset", comments := [] } :=
  runFetch_error_atomic (fun _ => .error "connection reset") "12:00:00" "key" "vid"
    "connection reset" rfl

/-- C7: a videos response without `items` (absent key or empty collection)
makes `downloadLiveData` return the `Live stream not found.` record with
`success = false` at once, the videos call being the only request made. -/
theorem downloadLiveData_not_found :
    ∀ f now k v j, f (videosUrl v k) = .ok j →
      (!(j.contains "items") || (j.index "items").isEmpty) = true →
      downloadLiveData f now k v =
        (.ok { success := false, viewersText := "",
               statusText := "Live stream not found.", comments := [] },
         [videosUrl v k]) := by
  intro f now k v j hf hitems
  simp [downloadLiveData, hf, hitems]

/-- Closed instance of `downloadLiveData_not_found`: a response that is an
object without an `items` key. -/
theorem downloadLiveData_not_found_witness :
    downloadLiveData (fun _ => .ok (Json.jobj [])) "12:00:00" "key" "vid" =
      (.ok { success := false, viewersText := "",
             statusText := "Live stream not found.", comments := [] },
       [videosUrl "vid" "key"]) :=
  downloadLiveData_not_found (fun _ => .ok (Json.jobj [])) "12:00:00" "key" "vid"
    (Json.jobj []) rfl (by decide)

/-- C8: `startAutoRefresh` parses the interval field as decimal minutes: an
empty (trimmed) field behaves like the default "1"; an unparseable value is
rejected with the invalid-interval message and auto-refresh stays off; a
non-positive value is rejected with the greater-than-zero message; a positive
value arms the repeating timer at `⌊minutes·60·1000⌋` ms, flips the mode to
auto-on, relabels the toggle button and performs one immediate refresh; in
particular text "2" arms 120000 ms. -/
theorem startAutoRefresh_spec :
    ∀ stod t,
      (trimStr t = "" → startAutoRefresh stod t = startAutoRefresh stod "1") ∧
      (stod (effectiveIntervalText t) = none →
        startAutoRefresh stod t =
          { statusMessage := some "Invalid refresh interval. Enter minutes."
            autoRefreshEnabled := false, timerIntervalMs := none
            toggleLabel := none, triggeredRefresh := false }) ∧
      (∀ m, stod (effectiveIntervalText t) = some m → m ≤ 0 →
        startAutoRefresh stod t =
          { statusMessage := some "The interval must be greater than zero."
            autoRefreshEnabled := false, timerIntervalMs := none
            toggleLabel := none, triggeredRefresh := false }) ∧
      (∀ m, stod (effectiveIntervalText t) = some m → 0 < m →
        startAutoRefresh stod t =
          { statusMessage := none, autoRefreshEnabled := true
            timerIntervalMs := some ⌊m * 60 * 1000⌋
            toggleLabel := some "Stop auto refresh", triggeredRefresh := true }) ∧
      (stod "2" = some 2 →
        (startAutoRefresh stod "2").timerIntervalMs = some 120000 ∧
        (startAutoRefresh stod "2").autoRefreshEnabled = true ∧
        (startAutoRefresh stod "2").triggeredRefresh = true) := by
  intro stod t
  refine ⟨fun h => ?_, fun h => ?_, fun m hm hle => ?_, fun m hm hpos => ?_, fun h => ?_⟩
  · have h0 : toString kDefaultIntervalMinutes = "1" := by decide
    have h1 : effectiveIntervalText t = "1" := by
      simp [effectiveIntervalText, h, h0]
    have h2 : effectiveIntervalText "1" = "1" := by decide
    simp [startAutoRefresh, h1, h2]
  · simp [startAutoRefresh, h]
  · simp [startAutoRefresh, hm, hle]
  · simp [startAutoRefresh, hm, not_le.mpr hpos]
  · have h2 : effectiveIntervalText "2" = "2" := by decide
    have hfloor : ⌊(2 : ℚ) * 60 * 1000⌋ = 120000 := by norm_num
    have hn : ¬((2 : ℚ) ≤ 0) := by norm_num
    refine ⟨?_, ?_, ?_⟩ <;> simp [startAutoRefresh, h2, h, hfloor, hn]

/-- Closed instance of `startAutoRefresh_spec` with a concrete conversion
oracle covering the spec's "2", "0" and "abc" examples and the empty field. -/
theorem startAutoRefresh_spec_witness :
    (startAutoRefresh
        (fun s => if s = "2" then some 2 else if s = "0" then some 0
                  else if s = "1" then some 1 else none) "2").timerIntervalMs
      = some 120000 ∧
    (startAutoRefresh
        (fun s => if s = "2" then some 2 else if s = "0" then some 0
                  else if s = "1" then some 1 else none) "0").autoRefreshEnabled
      = false ∧
    (startAutoRefresh
        (fun s => if s = "2" then some 2 else if s = "0" then some 0
                  else if s = "1" then some 1 else none) "abc")
      = { statusMessage := some "Invalid refresh interval. Enter minutes."
          autoRefreshEnabled := false, timerIntervalMs := none
          toggleLabel := none, triggeredRefresh := false } ∧
    (startAutoRefresh
        (fun s => if s = "2" then some 2 else if s = "0" then some 0
                  else if s = "1" then some 1 else none) " ")
      = startAutoRefresh
          (fun s => if s = "2" then some 2 else if s = "0" then some 0
                    else if s = "1" then some 1 else none) "1" := by
  refine ⟨((startAutoRefresh_spec
      (fun s => if s = "2" then some 2 else if s = "0" then some 0
                else if s = "1" then some 1 else none) "2").2.2.2.2 (by decide)).1,
    ?_, ?_, ?_⟩
  · have h := (startAutoRefresh_spec
        (fun s => if s = "2" then some 2 else if s = "0" then some 0
                  else if s = "1" then some 1 else none) "0").2.2.1 0 (by decide)
        (le_refl 0)
    rw [h]
  · exact (startAutoRefresh_spec
        (fun s => if s = "2" then some 2 else if s = "0" then some 0
                  else if s = "1" then some 1 else none) "abc").2.1 (by decide)
  · exact (startAutoRefresh_spec
        (fun s => if s = "2" then some 2 else if s = "0" then some 0
                  else if s = "1" then some 1 else none) " ").1 (by decide)

/-- C4: every record `downloadLiveData` produces holds at most `kMaxComments`
(= 25) comment lines, however many chat items the response contains, and the
UI render closure never adds more than `kMaxComments` lines to the list
widget. -/
theorem liveData_comments_le_kMaxComments :
    (∀ f now k v d, (downloadLiveData f now k v).1 = .ok d →
       d.comments.length ≤ kMaxComments) ∧
    (∀ cs, (renderListLines cs).length ≤ kMaxComments) := by
  constructor
  · intro f now k v d h
    rcases downloadLiveData_cases f now k v d h with
      ⟨j, _, _, hd, _⟩ | ⟨j, _, _, ⟨viewers, cs, hlen, hd⟩, _⟩
    · rw [hd]; simp [kMaxComments]
    · rw [hd]; exact finishLiveData_comments_length now viewers cs hlen
  · intro cs
    rw [renderListLines]
    by_cases h : cs.isEmpty
    · simp [h, kMaxComments]
    · simp only [h, Bool.false_eq_true, if_false, List.length_take]
      exact Nat.min_le_left _ _

/-- Closed instance of `liveData_comments_le_kMaxComments` on the sample
fetch. -/
theorem liveData_comments_le_kMaxComments_witness :
    sampleLive.comments.length ≤ kMaxComments :=
  liveData_comments_le_kMaxComments.1 sampleFetch "12:00:00" "key" "vid" sampleLive rfl

/-- C5: in every record `downloadLiveData` produces, `success` is true
exactly when the videos call returned a response with a non-empty `items`
collection (a video was found), and every network call the cycle performed
returned without throwing. -/
theorem downloadLiveData_success_iff :
    ∀ f now k v d, (downloadLiveData f now k v).1 = .ok d →
      (d.success = true ↔
        ∃ j, f (videosUrl v k) = .ok j ∧ j.contains "items" = true ∧
          (j.index "items").isEmpty = false) ∧
      (∀ u ∈ (downloadLiveData f now k v).2, ∃ j, f u = .ok j) := by
  intro f now k v d h
  rcases downloadLiveData_cases f now k v d h with
    ⟨j, hf, hit, hd, htr⟩ | ⟨j, hf, hit, ⟨viewers, cs, hlen, hd⟩, htr⟩
  · constructor
    · rw [hd]
      simp only [show ({ statusText := "Live stream not found." } : LiveData).success
          = false from rfl, Bool.false_eq_true, false_iff]
      rintro ⟨j', hf', hc, he⟩
      rw [hf] at hf'
      injection hf' with hf'
      rw [hf'] at hit
      rw [hc, he] at hit
      simp at hit
    · intro u hu
      rw [htr] at hu
      rw [List.mem_singleton] at hu
      exact hu ▸ ⟨j, hf⟩
  · have hfound : j.contains "items" = true ∧ (j.index "items").isEmpty = false := by
      simpa using hit
    constructor
    · rw [hd]
      exact iff_of_true (finishLiveData_success now viewers cs)
        ⟨j, hf, hfound.1, hfound.2⟩
    · intro u hu
      rcases htr with htr | ⟨cid, cj, hcj, htr⟩
      · rw [htr, List.mem_singleton] at hu
        exact hu ▸ ⟨j, hf⟩
      · rw [htr, List.mem_cons, List.mem_singleton] at hu
        rcases hu with hu | hu
        · exact hu ▸ ⟨j, hf⟩
        · exact hu ▸ ⟨cj, hcj⟩

/-- Closed instance of `downloadLiveData_success_iff` on the sample fetch. -/
theorem downloadLiveData_success_iff_witness :
    sampleLive.success = true :=
  ((downloadLiveData_success_iff sampleFetch "12:00:00" "key" "vid"
      sampleLive rfl).1).mpr ⟨sampleVideoJson, rfl, rfl, rfl⟩

/-- C6 counterexample: the `Live stream not found.` early return is a record
produced by `downloadLiveData` whose `comments` sequence is empty, so the
comments sequence is not "never empty". -/
theorem downloadLiveData_empty_comments_cex :
    (downloadLiveData (fun _ => .ok (Json.jobj [])) "12:00:00" "key" "vid").1 =
      .ok notFoundLive ∧ notFoundLive.comments = [] :=
  ⟨rfl, rfl⟩

/-- C6 (amended): every record `downloadLiveData` produces with
`success = true` has a non-empty comments sequence (the placeholder fallback
fires when no chat line was collected); the only produced record with empty
comments is the `Live stream not found.` early return, which has
`success = false`. -/
theorem comments_nonempty_on_success :
    ∀ f now k v d, (downloadLiveData f now k v).1 = .ok d →
      (d.success = true → d.comments ≠ []) ∧
      (d.comments = [] →
        d.success = false ∧ d.statusText = "Live stream not found.") := by
  intro f now k v d h
  rcases downloadLiveData_cases f now k v d h with
    ⟨j, hf, hit, hd, htr⟩ | ⟨j, hf, hit, ⟨viewers, cs, hlen, hd⟩, htr⟩
  · rw [hd]
    exact ⟨fun hs => absurd hs (by simp), fun _ => ⟨rfl, rfl⟩⟩
  · rw [hd]
    exact ⟨fun _ => finishLiveData_comments_ne_nil now viewers cs,
      fun hc => absurd hc (finishLiveData_comments_ne_nil now viewers cs)⟩

/-- Closed instance of `comments_nonempty_on_success` on the sample fetch. -/
theorem comments_nonempty_on_success_witness :
    sampleLive.comments ≠ [] :=
  (comments_nonempty_on_success sampleFetch "12:00:00" "key" "vid"
    sampleLive rfl).1 rfl

/-- C1: `extractVideoId` coincides with the specified algorithm — trim and
fail on empty; return a trimmed value that is itself a valid 11-character ID
unchanged; otherwise try the markers `v=`, `youtu.be/`, `/embed/` in that
fixed priority order, take the text after the marker up to the first of
`?`/`&`/`#` or end of string, and return the first candidate passing the
11-character rule, the empty string when none does — and in particular maps
`https://youtu.be/dQw4w9WgXcQ?t=5` to `dQw4w9WgXcQ` and `not a url` to the
empty string. -/
theorem extractVideoId_spec_conformance :
    (∀ url, extractVideoId url = extractVideoIdSpec url) ∧
    extractVideoId "https://youtu.be/dQw4w9WgXcQ?t=5".toList = "dQw4w9WgXcQ".toList ∧
    extractVideoId "not a url".toList = [] :=
  ⟨extractVideoId_eq_spec, by decide, by decide⟩

/-- C10: `extractVideoId` is insensitive to surrounding whitespace —
pre-trimming the input does not change the result, and neither does adding
all-whitespace padding on either side — and every non-empty result is a
valid ID: exactly 11 characters, each alphanumeric or `-`/`_`. -/
theorem extractVideoId_trim_invariant :
    (∀ url, extractVideoId (trim url) = extractVideoId url) ∧
    (∀ ws url ws', (∀ c ∈ ws, isspace c = true) → (∀ c ∈ ws', isspace c = true) →
      extractVideoId (ws ++ url ++ ws') = extractVideoId url) ∧
    (∀ url, extractVideoId url ≠ [] → isCandidate (extractVideoId url) = true) := by
  refine ⟨fun url => ?_, fun ws url ws' hws hws' => ?_, fun url h => ?_⟩
  · rw [extractVideoId, extractVideoId, trim_idem]
  · rw [extractVideoId, extractVideoId,
      trim_append_right (ws ++ url) hws', trim_append_left url hws]
  · exact extractVideoId_valid_of_ne_nil h

/-- Closed instance of `extractVideoId_trim_invariant`: padding with spaces
preserves the extraction, and the non-empty result is a valid ID. -/
theorem extractVideoId_trim_invariant_witness :
    extractVideoId ([' '] ++ "dQw4w9WgXcQ".toList ++ [' ', ' '])
      = extractVideoId "dQw4w9WgXcQ".toList ∧
    isCandidate (extractVideoId "dQw4w9WgXcQ".toList) = true :=
  ⟨extractVideoId_trim_invariant.2.1 [' '] "dQw4w9WgXcQ".toList [' ', ' ']
      (by decide) (by decide),
   extractVideoId_trim_invariant.2.2 "dQw4w9WgXcQ".toList (by decide)⟩

end AviTab
